import Mathlib

/-!
# Verification of the KC705 MobileNetV3 PCIe driver core

Shallow embedding of `kc705_mobilenet_driver.c` (and the register map of
`kc705_mobilenet_driver.h`).  Conventions of the embedding:

* 32-bit machine words are `Nat`s; a register write stores `value % 2^32`
  exactly as the hardware truncates a `uint32_t` store.
* The two memory-mapped windows are modelled by their contents:
  `regs : Nat → Nat` gives the 32-bit word at a byte offset of the 4096-byte
  control window (BAR0), `mem : Nat → Nat` gives the byte at an offset of the
  65536-byte data window (BAR1).  The Booleans `reg_base` / `mem_base` say
  whether the corresponding `mmap` succeeded (a null pointer in the C source
  is `false` here).
* The STATUS register (offset 0x04) is volatile: the hardware flips its DONE
  bit asynchronously.  Functions that read STATUS therefore take an oracle
  `statusAt : Nat → Nat` giving the word returned by their k-th STATUS read
  (the k-th poll of the loop in `kc705_get_result`).  All other registers are
  only ever written by the driver, so their content lives in `regs`.
* C out-parameters that are written only on some paths are embedded by a
  `..._core` function returning `Option` (`none` = the pointee was not
  written), plus a wrapper applying `Option.getD` to the caller's old value.
* A buffer argument `(const uint8_t* p, size_t size)` is embedded as
  `List Nat` of its `size` bytes (a well-formed call: `size = p.length`).
* The C `float` arithmetic on confidences is modelled exactly over `ℚ`; the
  only numeric facts used (`raw / 10000 ≤ 1 ↔ raw ≤ 10000`, values at the
  concrete inputs appearing below) agree with IEEE single rounding.
* `usleep` has no observable effect beyond time; one loop iteration of the
  poll loop stands for its 1 ms sleep.
-/

set_option autoImplicit false

/-! ## Constants from kc705_mobilenet_driver.h -/

def KC705_SUCCESS : Int := 0
def KC705_ERROR : Int := -1
def KC705_TIMEOUT : Int := -2
def KC705_NO_DEVICE : Int := -3
def KC705_INVALID_PARAM : Int := -4

def KC705_MAX_DEVICES : Nat := 8

def REG_CONTROL : Nat := 0x00
def REG_STATUS : Nat := 0x04
def REG_IMAGE_SIZE : Nat := 0x0C
def REG_DEBUG : Nat := 0x1C

def KC705_IMAGE_BASE : Nat := 0x1000
def KC705_RESULT_BASE : Nat := 0x2000

def CTRL_START : Nat := 1
def CTRL_RESET : Nat := 2
def CTRL_IRQ_EN : Nat := 4

def STAT_DONE : Nat := 1
def STAT_BUSY : Nat := 2
def STAT_ERROR : Nat := 4
def STAT_LINK_UP : Nat := 8

def NUM_CLASSES : Nat := 1000

def UINT32_MOD : Nat := 4294967296

/-! ## Data model -/

/-- Embedding of `struct kc705_device`.  `reg_base` / `mem_base` record
whether the respective window is mapped (pointer non-null); `regs` / `mem`
hold the contents the pointers point at (`bar_size` is never read by the
driver and is omitted). -/
structure Device where
  pci_fd : Int
  reg_base : Bool
  mem_base : Bool
  is_open : Bool
  device_id : Nat
  device_path : String
  regs : Nat → Nat
  mem : Nat → Nat

/-- Embedding of `classification_result_t`; `confidence` models the C
`float` exactly as a rational. -/
structure CResult where
  class_id : Nat
  confidence : ℚ
  processing_time_us : Nat
  valid : Bool
deriving DecidableEq

instance : Inhabited CResult := ⟨⟨0, 0, 0, false⟩⟩

/-! ## Register access layer -/

/-- `kc705_write_reg` acting on a known-good `Device` value: the guarded
register store; a failed guard leaves the device untouched (the C function
returns `KC705_INVALID_PARAM` before the volatile store). -/
def writeRegD (dev : Device) (offset value : Nat) : Device :=
  if dev.is_open && dev.reg_base then
    { dev with regs := fun o => if o = offset then value % UINT32_MOD else dev.regs o }
  else dev

/-- `kc705_write_reg(device, offset, value)`. -/
def kc705_write_reg (d : Option Device) (offset value : Nat) : Int × Option Device :=
  match d with
  | none => (KC705_INVALID_PARAM, none)
  | some dev =>
    if dev.is_open && dev.reg_base then (KC705_SUCCESS, some (writeRegD dev offset value))
    else (KC705_INVALID_PARAM, some dev)

/-- `kc705_read_reg(device, offset, &value)`: `none` in the second component
means the out-parameter was left untouched (the guard failed). -/
def kc705_read_reg (d : Option Device) (offset : Nat) : Int × Option Nat :=
  match d with
  | none => (KC705_INVALID_PARAM, none)
  | some dev =>
    if dev.is_open && dev.reg_base then (KC705_SUCCESS, some (dev.regs offset))
    else (KC705_INVALID_PARAM, none)

/-! ## Status functions -/

/-- `kc705_is_done(device)`.  `statusWord` is the value the volatile STATUS
register holds at this particular read; a failed `kc705_read_reg` (null or
closed handle, unmapped register window) yields `false` exactly as in the C
source. -/
def kc705_is_done (d : Option Device) (statusWord : Nat) : Bool :=
  match d with
  | none => false
  | some dev =>
    if dev.is_open && dev.reg_base then statusWord &&& STAT_DONE != 0
    else false

/-! ## The polling loop of kc705_get_result

`while (!kc705_is_done(device) && elapsed_ms < timeout_ms) { usleep(1000); elapsed_ms++; }`

`pollGo` mirrors the loop with an explicit fuel so that it computes by
structural recursion; `5001` units of fuel are enough because the guard
forces `elapsed ≤ 5000` on exit. -/

def pollGo (d : Option Device) (statusAt : Nat → Nat) : Nat → Nat → Nat
  | 0, elapsed => elapsed
  | fuel + 1, elapsed =>
    if kc705_is_done d (statusAt elapsed) = false ∧ elapsed < 5000 then
      pollGo d statusAt fuel (elapsed + 1)
    else elapsed

/-- Final value of `elapsed_ms` when the polling loop of `kc705_get_result`
exits; the loop performs STATUS reads at indices `0, 1, …, pollElapsed`. -/
def pollElapsed (d : Option Device) (statusAt : Nat → Nat) : Nat :=
  pollGo d statusAt 5001 0

/-! ## Result extraction -/

/-- Little-endian 32-bit load from the byte contents of the data window
(the C source reads `uint32_t` words through a pointer cast on x86). -/
def word32At (m : Nat → Nat) (o : Nat) : Nat :=
  m o % 256 + 256 * (m (o + 1) % 256) + 65536 * (m (o + 2) % 256) +
    16777216 * (m (o + 3) % 256)

/-- The i-th raw result word (i = 0 class id, 1 fixed-point confidence,
2 timing) as read by `kc705_get_result`: from the data window at
`KC705_RESULT_BASE` when it is mapped, else via register reads at
`KC705_RESULT_BASE + 4*i`. -/
def resultWord (dev : Device) (i : Nat) : Nat :=
  if dev.mem_base then word32At dev.mem (KC705_RESULT_BASE + 4 * i)
  else dev.regs (KC705_RESULT_BASE + 4 * i)

/-- `kc705_get_result(device, result)` up to the out-parameter: the second
component is the record written through `result` (`none` = untouched), the
third whether the three result words were read at all. -/
def kc705_get_result_core (d : Option Device) (statusAt : Nat → Nat) :
    Int × Option CResult × Bool :=
  match d with
  | none => (KC705_INVALID_PARAM, none, false)
  | some dev =>
    if dev.is_open = false then (KC705_INVALID_PARAM, none, false)
    else
      let e := pollElapsed (some dev) statusAt
      if 5000 ≤ e then (KC705_TIMEOUT, none, false)
      else
        (KC705_SUCCESS,
         some { class_id := resultWord dev 0 % NUM_CLASSES,
                confidence := (resultWord dev 1 : ℚ) / 10000,
                processing_time_us := resultWord dev 2,
                valid := true },
         true)

/-- `kc705_get_result(device, result)`.  `rec` is the record `*result`
held before the call; the returned record is its value after the call. -/
def kc705_get_result (d : Option Device) (statusAt : Nat → Nat) (rec : CResult) :
    Int × CResult × Bool :=
  let c := kc705_get_result_core d statusAt
  (c.1, c.2.1.getD rec, c.2.2)

/-- `kc705_get_result_nowait(device, result)`: one STATUS probe (read index
0), then either an immediate timeout or delegation to `kc705_get_result`,
whose polls consume the subsequent STATUS reads. -/
def kc705_get_result_nowait (d : Option Device) (statusAt : Nat → Nat) (rec : CResult) :
    Int × CResult × Bool :=
  if kc705_is_done d (statusAt 0) = false then (KC705_TIMEOUT, rec, false)
  else kc705_get_result d (fun k => statusAt (k + 1)) rec

/-! ## Transport selector: kc705_upload_image -/

/-- The `memcpy((char*)device->mem_base + KC705_IMAGE_BASE, image_data, size)`
of the shared-memory path: byte-wise store into the data window. -/
def memWrite (dev : Device) (base : Nat) (data : List Nat) : Device :=
  { dev with
    mem := fun o =>
      if base ≤ o ∧ o < base + data.length then data.getD (o - base) 0 % 256
      else dev.mem o }

/-- Little-endian 32-bit word assembled from 4 consecutive buffer bytes
(the `*(uint32_t*)(image_data + i)` of the register fallback path; bytes past
the end of the buffer are unconstrained in C and read as 0 here). -/
def word32OfBytes (data : List Nat) (i : Nat) : Nat :=
  data.getD i 0 % 256 + 256 * (data.getD (i + 1) 0 % 256) +
    65536 * (data.getD (i + 2) 0 % 256) + 16777216 * (data.getD (i + 3) 0 % 256)

/-- The register fallback path of `kc705_upload_image`: one
`kc705_write_reg(device, KC705_IMAGE_BASE + i, word)` per 4-byte chunk,
`i = 0, 4, …` while `i < size` (return values ignored, as in the C source). -/
def uploadWords (dev : Device) (data : List Nat) : Device :=
  (List.range ((data.length + 3) / 4)).foldl
    (fun dv j => writeRegD dv (KC705_IMAGE_BASE + 4 * j) (word32OfBytes data (4 * j))) dev

/-- `kc705_upload_image(device, image_data, size)` with `size` the length of
the byte list (`none` = null buffer pointer). -/
def kc705_upload_image (d : Option Device) (img : Option (List Nat)) : Int × Option Device :=
  match d, img with
  | some dev, some data =>
    if dev.is_open = false then (KC705_INVALID_PARAM, some dev)
    else if 4096 < data.length then (KC705_INVALID_PARAM, some dev)
    else
      let dev1 := if dev.mem_base then memWrite dev KC705_IMAGE_BASE data
                  else uploadWords dev data
      (KC705_SUCCESS, some (writeRegD dev1 REG_IMAGE_SIZE data.length))
  | _, _ => (KC705_INVALID_PARAM, d)

/-- `kc705_start_inference(device)`: writes `CTRL_START | CTRL_IRQ_EN` to the
control register and returns the status of that write. -/
def kc705_start_inference (d : Option Device) : Int × Option Device :=
  match d with
  | none => (KC705_INVALID_PARAM, none)
  | some dev =>
    if dev.is_open = false then (KC705_INVALID_PARAM, some dev)
    else kc705_write_reg (some dev) REG_CONTROL (CTRL_START ||| CTRL_IRQ_EN)

/-! ## Convenience functions -/

/-- `kc705_infer(device, image_data, size, result)` up to the `result`
out-parameter (`none` = never written). -/
def kc705_infer_core (d : Option Device) (img : Option (List Nat)) (statusAt : Nat → Nat) :
    Int × Option Device × Option CResult :=
  let u := kc705_upload_image d img
  if u.1 ≠ KC705_SUCCESS then (u.1, u.2, none)
  else
    let s := kc705_start_inference u.2
    if s.1 ≠ KC705_SUCCESS then (s.1, s.2, none)
    else
      let g := kc705_get_result_core s.2 statusAt
      (g.1, s.2, g.2.1)

/-- `kc705_infer(device, image_data, size, result)`; `rec` is `*result`
before the call, the last component its value after the call. -/
def kc705_infer (d : Option Device) (img : Option (List Nat)) (statusAt : Nat → Nat)
    (rec : CResult) : Int × Option Device × CResult :=
  let c := kc705_infer_core d img statusAt
  (c.1, c.2.1, c.2.2.getD rec)

/-! ## Image loading and the batch orchestrator

The filesystem is an external collaborator: `fs f` is the byte content of
file `f` (`none` = `fopen` fails).  `kc705_load_image` reads exactly
`224 * 224 * 3 = 150528` bytes and fails on a short read; on success
`kc705_infer_file` always passes `width * height * channels = 150528` as the
size to `kc705_infer`. -/

def kc705_load_image (fs : String → Option (List Nat)) (f : String) : Option (List Nat) :=
  match fs f with
  | none => none
  | some bs => if bs.length < 150528 then none else some (List.take 150528 bs)

/-- `kc705_infer_file(device, filename, result)` up to the out-parameter. -/
def kc705_infer_file_core (fs : String → Option (List Nat)) (d : Option Device)
    (statusAt : Nat → Nat) (f : String) : Int × Option Device × Option CResult :=
  match kc705_load_image fs f with
  | none => (KC705_ERROR, d, none)
  | some data => kc705_infer_core d (some data) statusAt

/-- `kc705_infer_file(device, filename, result)`. -/
def kc705_infer_file (fs : String → Option (List Nat)) (d : Option Device)
    (statusAt : Nat → Nat) (f : String) (rec : CResult) : Int × Option Device × CResult :=
  let c := kc705_infer_file_core fs d statusAt f
  (c.1, c.2.1, c.2.2.getD rec)

/-- The loop of `kc705_infer_batch`: `processed` starts at `p`, each item is
given the slot `&results[processed]`, and `processed` advances only on
`KC705_SUCCESS`. -/
def batchGo (fs : String → Option (List Nat)) (statusAt : Nat → Nat) :
    List String → Option Device → Nat → List CResult → Nat × Option Device × List CResult
  | [], d, p, rs => (p, d, rs)
  | f :: rest, d, p, rs =>
    let out := kc705_infer_file fs d statusAt f (rs.getD p default)
    if out.1 = KC705_SUCCESS then
      batchGo fs statusAt rest out.2.1 (p + 1) (rs.set p out.2.2)
    else
      batchGo fs statusAt rest out.2.1 p (rs.set p out.2.2)

/-- `kc705_infer_batch(device, image_files, num_images, results)`:
returns (`processed`, final device, final contents of `results`). -/
def kc705_infer_batch (fs : String → Option (List Nat)) (d : Option Device)
    (statusAt : Nat → Nat) (files : List String) (results : List CResult) :
    Nat × Option Device × List CResult :=
  batchGo fs statusAt files d 0 results

/-- Reference run of the batch: the list of result records of the successful
items in encounter order, and the device state after the whole batch. -/
def batchRun (fs : String → Option (List Nat)) (statusAt : Nat → Nat) :
    List String → Option Device → List CResult × Option Device
  | [], d => ([], d)
  | f :: rest, d =>
    let c := kc705_infer_file_core fs d statusAt f
    let r := batchRun fs statusAt rest c.2.1
    (if c.1 = KC705_SUCCESS then c.2.2.toList ++ r.1 else r.1, r.2)

/-- Sequential overwrite of `rs` starting at position `p` (the dense write
pattern of a batch whose successes are `recs`). -/
def writeFrom : List CResult → Nat → List CResult → List CResult
  | rs, _, [] => rs
  | rs, p, r :: recs => writeFrom (rs.set p r) (p + 1) recs

/-! ## Device lifecycle -/

/-- `kc705_open_device(device_index)`.  Discovery is the external
collaborator of the spec: `paths` is what `kc705_enumerate_devices` produced
(the driver passes `max_devices = KC705_MAX_DEVICES`, hence the `take`).
`mapRegOk` says whether opening/mapping BAR0 succeeds (mandatory),
`mapMemOk` whether BAR1 maps (optional), `fd` is the file descriptor of
`resource0`, and `hwRegs` / `hwMem` are the hardware contents of the two
windows at open time.  The C function only range-checks
`device_index >= num_devices`; a negative index is passed straight to
`device_paths[device_index]` (undefined behaviour, not modelled: the index
is clamped by `Int.toNat` here). -/
def kc705_open_device (paths : List String) (mapRegOk mapMemOk : Bool) (fd : Int)
    (hwRegs hwMem : Nat → Nat) (device_index : Int) : Option Device :=
  let ps := paths.take KC705_MAX_DEVICES
  if ps.length = 0 then none
  else if (ps.length : Int) ≤ device_index then none
  else if mapRegOk = false then none
  else
    some { pci_fd := fd, reg_base := true, mem_base := mapMemOk, is_open := true,
           device_id := device_index.toNat,
           device_path := ps.getD device_index.toNat "",
           regs := hwRegs, mem := hwMem }

/-- The observable actions of one `kc705_close` call. -/
structure CloseEff where
  unmappedReg : Bool
  unmappedMem : Bool
  closedFd : Bool
  freed : Bool
deriving DecidableEq

def noCloseEff : CloseEff := ⟨false, false, false, false⟩

/-- `kc705_close(device)`: unmaps each window that is mapped, closes the fd
if non-negative, clears `is_open` and frees the handle; a null or
already-closed handle is rejected before any of these effects. -/
def kc705_close (d : Option Device) : Int × CloseEff :=
  match d with
  | none => (KC705_INVALID_PARAM, noCloseEff)
  | some dev =>
    if dev.is_open = false then (KC705_INVALID_PARAM, noCloseEff)
    else
      (KC705_SUCCESS,
       { unmappedReg := dev.reg_base, unmappedMem := dev.mem_base,
         closedFd := decide (0 ≤ dev.pci_fd), freed := true })

/-! ## Concrete devices and inputs used in witnesses and counterexamples -/

def zeroRegs : Nat → Nat := fun _ => 0

/-- Register file of the simulated device of the spec's scenario:
STATUS preset to DONE, result record `{class_id = 42, confidence_raw = 8734,
timing = 1500}` at `KC705_RESULT_BASE`. -/
def regs42 : Nat → Nat := fun o =>
  if o = REG_STATUS then STAT_DONE
  else if o = KC705_RESULT_BASE then 42
  else if o = KC705_RESULT_BASE + 4 then 8734
  else if o = KC705_RESULT_BASE + 8 then 1500
  else 0

/-- Open simulated device exposing `regs42` through the register window
(no data window, so results are read via register reads). -/
def dev42 : Device :=
  { pci_fd := 3, reg_base := true, mem_base := false, is_open := true,
    device_id := 0, device_path := "sim0", regs := regs42, mem := zeroRegs }

/-- Register file with DONE preset and a garbage fixed-point confidence word
of 20000 (i.e. 2.0 after division by 10000). -/
def regsConf : Nat → Nat := fun o =>
  if o = REG_STATUS then STAT_DONE
  else if o = KC705_RESULT_BASE + 4 then 20000
  else 0

def devConf : Device :=
  { pci_fd := 3, reg_base := true, mem_base := false, is_open := true,
    device_id := 0, device_path := "sim1", regs := regsConf, mem := zeroRegs }

/-- A plain open device whose registers all read 0. -/
def devOpen : Device :=
  { pci_fd := 3, reg_base := true, mem_base := false, is_open := true,
    device_id := 0, device_path := "sim2", regs := zeroRegs, mem := zeroRegs }

/-- A handle that has already been closed (`is_open = false`). -/
def devClosed : Device :=
  { pci_fd := -1, reg_base := false, mem_base := false, is_open := false,
    device_id := 0, device_path := "", regs := zeroRegs, mem := zeroRegs }

/-- A result record as a caller would initialise it (`valid = false`). -/
def rec0 : CResult := ⟨0, 0, 0, false⟩

/-- STATUS schedule whose DONE bit first appears at the 5001st read (poll
index 5000), i.e. only after the 5000 ms budget is exhausted. -/
def stLate : Nat → Nat := fun k => if k = 5000 then STAT_DONE else 0

/-! ## Helper lemmas: field preservation -/

theorem writeRegD_is_open (dev : Device) (o v : Nat) :
    (writeRegD dev o v).is_open = dev.is_open := by
  unfold writeRegD; split <;> rfl

theorem writeRegD_reg_base (dev : Device) (o v : Nat) :
    (writeRegD dev o v).reg_base = dev.reg_base := by
  unfold writeRegD; split <;> rfl

theorem writeRegD_mem_base (dev : Device) (o v : Nat) :
    (writeRegD dev o v).mem_base = dev.mem_base := by
  unfold writeRegD; split <;> rfl

theorem writeRegD_regs_self (dev : Device) (o v : Nat)
    (h1 : dev.is_open = true) (h2 : dev.reg_base = true) :
    (writeRegD dev o v).regs o = v % UINT32_MOD := by
  simp [writeRegD, h1, h2]

theorem memWrite_is_open (dev : Device) (b : Nat) (l : List Nat) :
    (memWrite dev b l).is_open = dev.is_open := rfl

theorem memWrite_reg_base (dev : Device) (b : Nat) (l : List Nat) :
    (memWrite dev b l).reg_base = dev.reg_base := rfl

theorem foldl_writeRegD_is_open (data : List Nat) (L : List Nat) :
    ∀ dv : Device,
      (L.foldl (fun dv2 j => writeRegD dv2 (KC705_IMAGE_BASE + 4 * j)
        (word32OfBytes data (4 * j))) dv).is_open = dv.is_open := by
  induction L with
  | nil => intro dv; rfl
  | cons j L ih =>
    intro dv
    rw [List.foldl_cons, ih, writeRegD_is_open]

theorem foldl_writeRegD_reg_base (data : List Nat) (L : List Nat) :
    ∀ dv : Device,
      (L.foldl (fun dv2 j => writeRegD dv2 (KC705_IMAGE_BASE + 4 * j)
        (word32OfBytes data (4 * j))) dv).reg_base = dv.reg_base := by
  induction L with
  | nil => intro dv; rfl
  | cons j L ih =>
    intro dv
    rw [List.foldl_cons, ih, writeRegD_reg_base]

theorem uploadWords_is_open (dev : Device) (data : List Nat) :
    (uploadWords dev data).is_open = dev.is_open :=
  foldl_writeRegD_is_open data _ dev

theorem uploadWords_reg_base (dev : Device) (data : List Nat) :
    (uploadWords dev data).reg_base = dev.reg_base :=
  foldl_writeRegD_reg_base data _ dev

/-! ## Helper lemmas: the polling loop -/

theorem pollGo_no_done (d : Option Device) (statusAt : Nat → Nat) :
    ∀ (fuel e : Nat), e + fuel = 5001 → e ≤ 5000 →
      (∀ k, e ≤ k → k < 5000 → kc705_is_done d (statusAt k) = false) →
      pollGo d statusAt fuel e = 5000 := by
  intro fuel
  induction fuel with
  | zero => intro e he hle _; omega
  | succ fuel ih =>
    intro e he hle hnd
    by_cases h5 : e < 5000
    · have hd : kc705_is_done d (statusAt e) = false := hnd e le_rfl h5
      simp only [pollGo]
      rw [if_pos ⟨hd, h5⟩]
      exact ih (e + 1) (by omega) (by omega) (fun k hk1 hk2 => hnd k (by omega) hk2)
    · have he5 : e = 5000 := by omega
      subst he5
      simp only [pollGo]
      rw [if_neg (by omega)]

theorem pollGo_first_done (d : Option Device) (statusAt : Nat → Nat) :
    ∀ (fuel e k0 : Nat), e ≤ k0 → k0 < 5000 →
      kc705_is_done d (statusAt k0) = true →
      (∀ j, e ≤ j → j < k0 → kc705_is_done d (statusAt j) = false) →
      k0 < e + fuel →
      pollGo d statusAt fuel e = k0 := by
  intro fuel
  induction fuel with
  | zero => intro e k0 hek h5 _ _ hlt; omega
  | succ fuel ih =>
    intro e k0 hek h5 hd hf hlt
    by_cases hek0 : e = k0
    · subst hek0
      simp only [pollGo]
      rw [if_neg (by simp [hd])]
    · have helt : e < k0 := by omega
      have hde : kc705_is_done d (statusAt e) = false := hf e le_rfl helt
      simp only [pollGo]
      rw [if_pos ⟨hde, by omega⟩]
      exact ih (e + 1) k0 (by omega) h5 hd (fun j hj1 hj2 => hf j (by omega) hj2) (by omega)

theorem pollElapsed_no_done (d : Option Device) (statusAt : Nat → Nat)
    (h : ∀ k, k < 5000 → kc705_is_done d (statusAt k) = false) :
    pollElapsed d statusAt = 5000 :=
  pollGo_no_done d statusAt 5001 0 rfl (by omega) (fun k _ hk => h k hk)

theorem pollElapsed_first_done (d : Option Device) (statusAt : Nat → Nat) (k0 : Nat)
    (h5 : k0 < 5000) (hd : kc705_is_done d (statusAt k0) = true)
    (hf : ∀ j, j < k0 → kc705_is_done d (statusAt j) = false) :
    pollElapsed d statusAt = k0 :=
  pollGo_first_done d statusAt 5001 0 k0 (by omega) h5 hd (fun j _ hj => hf j hj) (by omega)

theorem pollGo_congr (d : Option Device) (s1 s2 : Nat → Nat)
    (h : ∀ k, kc705_is_done d (s1 k) = kc705_is_done d (s2 k)) :
    ∀ (fuel e : Nat), pollGo d s1 fuel e = pollGo d s2 fuel e := by
  intro fuel
  induction fuel with
  | zero => intro e; rfl
  | succ fuel ih =>
    intro e
    simp only [pollGo, h e, ih]

/-! ## Helper lemmas: the ERROR status bit -/

theorem land_done_lor_error (s : Nat) :
    (s ||| STAT_ERROR) &&& STAT_DONE = s &&& STAT_DONE := by
  apply Nat.eq_of_testBit_eq
  intro i
  cases i with
  | zero => simp [STAT_ERROR, STAT_DONE, Nat.testBit_and, Nat.testBit_or]
  | succ j => simp [STAT_ERROR, STAT_DONE, Nat.testBit_and, Nat.testBit_or, Nat.testBit_succ]

theorem is_done_lor_error (d : Option Device) (s : Nat) :
    kc705_is_done d (s ||| STAT_ERROR) = kc705_is_done d s := by
  unfold kc705_is_done
  cases d with
  | none => rfl
  | some dev => rw [land_done_lor_error]

/-! ## Helper lemmas: shapes of the result-producing functions -/

theorem grc_shape (d : Option Device) (statusAt : Nat → Nat) :
    kc705_get_result_core d statusAt = (KC705_INVALID_PARAM, none, false) ∨
    kc705_get_result_core d statusAt = (KC705_TIMEOUT, none, false) ∨
    ∃ r, kc705_get_result_core d statusAt = (KC705_SUCCESS, some r, true) ∧ r.valid = true := by
  unfold kc705_get_result_core
  cases d with
  | none => exact Or.inl rfl
  | some dev =>
    by_cases ho : dev.is_open = false
    · exact Or.inl (by simp [ho])
    · by_cases ht : 5000 ≤ pollElapsed (some dev) statusAt
      · exact Or.inr (Or.inl (by simp [ho, ht]))
      · refine Or.inr (Or.inr
          ⟨{ class_id := resultWord dev 0 % NUM_CLASSES,
             confidence := (resultWord dev 1 : ℚ) / 10000,
             processing_time_us := resultWord dev 2, valid := true }, ?_, rfl⟩)
        simp [ho, ht]

theorem grc_fail_none (d : Option Device) (statusAt : Nat → Nat)
    (h : (kc705_get_result_core d statusAt).1 ≠ KC705_SUCCESS) :
    (kc705_get_result_core d statusAt).2.1 = none := by
  rcases grc_shape d statusAt with hs | hs | ⟨r, hs, _⟩ <;> rw [hs]
  exact absurd (by rw [hs]) h

theorem grc_succ_some (d : Option Device) (statusAt : Nat → Nat)
    (h : (kc705_get_result_core d statusAt).1 = KC705_SUCCESS) :
    ∃ r, (kc705_get_result_core d statusAt).2.1 = some r ∧ r.valid = true := by
  rcases grc_shape d statusAt with hs | hs | ⟨r, hs, hv⟩
  · rw [hs] at h; exact absurd h (by decide)
  · rw [hs] at h; exact absurd h (by decide)
  · exact ⟨r, by rw [hs], hv⟩

theorem ic_fail_none (d : Option Device) (img : Option (List Nat)) (statusAt : Nat → Nat)
    (h : (kc705_infer_core d img statusAt).1 ≠ KC705_SUCCESS) :
    (kc705_infer_core d img statusAt).2.2 = none := by
  unfold kc705_infer_core at *
  by_cases h1 : (kc705_upload_image d img).1 ≠ KC705_SUCCESS
  · simp [h1]
  · by_cases h2 : (kc705_start_inference (kc705_upload_image d img).2).1 ≠ KC705_SUCCESS
    · simp [h1, h2]
    · simp only [h1, h2, if_false, ite_false]
      simp only [h1, h2, if_false, ite_false] at h
      exact grc_fail_none _ _ h

theorem ic_succ_some (d : Option Device) (img : Option (List Nat)) (statusAt : Nat → Nat)
    (h : (kc705_infer_core d img statusAt).1 = KC705_SUCCESS) :
    ∃ r, (kc705_infer_core d img statusAt).2.2 = some r ∧ r.valid = true := by
  unfold kc705_infer_core at *
  by_cases h1 : (kc705_upload_image d img).1 ≠ KC705_SUCCESS
  · simp [h1] at h
  · by_cases h2 : (kc705_start_inference (kc705_upload_image d img).2).1 ≠ KC705_SUCCESS
    · simp [h1, h2] at h
    · simp only [h1, h2, if_false, ite_false] at h ⊢
      exact grc_succ_some _ _ h

theorem iffc_fail_none (fs : String → Option (List Nat)) (d : Option Device)
    (statusAt : Nat → Nat) (f : String)
    (h : (kc705_infer_file_core fs d statusAt f).1 ≠ KC705_SUCCESS) :
    (kc705_infer_file_core fs d statusAt f).2.2 = none := by
  unfold kc705_infer_file_core at *
  cases hL : kc705_load_image fs f with
  | none => simp [hL]
  | some data =>
    simp only [hL] at h ⊢
    exact ic_fail_none _ _ _ h

theorem iffc_succ_some (fs : String → Option (List Nat)) (d : Option Device)
    (statusAt : Nat → Nat) (f : String)
    (h : (kc705_infer_file_core fs d statusAt f).1 = KC705_SUCCESS) :
    ∃ r, (kc705_infer_file_core fs d statusAt f).2.2 = some r ∧ r.valid = true := by
  unfold kc705_infer_file_core at *
  cases hL : kc705_load_image fs f with
  | none =>
    simp only [hL] at h
    exact absurd h (by decide)
  | some data =>
    simp only [hL] at h ⊢
    exact ic_succ_some _ _ _ h

/-! ## Helper lemmas: lists and the batch loop -/

theorem take_set_succ {α : Type} : ∀ (l : List α) (i : Nat) (a : α), i < l.length →
    (l.set i a).take (i + 1) = l.take i ++ [a] := by
  intro l
  induction l with
  | nil => intro i a h; simp at h
  | cons b t ih =>
    intro i a h
    cases i with
    | zero => simp
    | succ j =>
      have h2 := ih j a (by simpa using h)
      simp only [List.set_cons_succ, List.take_succ_cons, h2, List.cons_append]

theorem set_getD_self {α : Type} [Inhabited α] : ∀ (rs : List α) (p : Nat), p < rs.length →
    rs.set p (rs.getD p default) = rs := by
  intro rs
  induction rs with
  | nil => intro p h; simp at h
  | cons a t ih =>
    intro p h
    cases p with
    | zero => simp
    | succ q =>
      have h2 := ih q (by simpa using h)
      simp only [List.set_cons_succ, List.getD_cons_succ, h2]

theorem writeFrom_eq : ∀ (recs rs : List CResult) (p : Nat),
    p + recs.length ≤ rs.length →
    writeFrom rs p recs = rs.take p ++ recs ++ rs.drop (p + recs.length) := by
  intro recs
  induction recs with
  | nil =>
    intro rs p _
    simp [writeFrom, List.take_append_drop]
  | cons r recs ih =>
    intro rs p hcap
    have hplt : p < rs.length := by simp at hcap; omega
    have hlen : (rs.set p r).length = rs.length := List.length_set rs p r
    have ihs := ih (rs.set p r) (p + 1) (by simp at hcap ⊢; omega)
    simp only [writeFrom] at ihs ⊢
    rw [ihs, take_set_succ rs p r hplt, List.drop_set_of_lt r rs (by omega)]
    have harith : p + 1 + recs.length = p + (r :: recs).length := by simp; omega
    rw [harith]
    simp [List.append_assoc]

theorem batchRun_length_le (fs : String → Option (List Nat)) (statusAt : Nat → Nat) :
    ∀ (files : List String) (d : Option Device),
      (batchRun fs statusAt files d).1.length ≤ files.length := by
  intro files
  induction files with
  | nil => intro d; simp [batchRun]
  | cons f rest ih =>
    intro d
    simp only [batchRun]
    by_cases hs : (kc705_infer_file_core fs d statusAt f).1 = KC705_SUCCESS
    · simp only [hs, if_true, List.length_append, List.length_cons]
      have h1 : (kc705_infer_file_core fs d statusAt f).2.2.toList.length ≤ 1 := by
        cases (kc705_infer_file_core fs d statusAt f).2.2 <;> simp
      have h2 := ih (kc705_infer_file_core fs d statusAt f).2.1
      omega
    · simp only [hs, if_false, List.length_cons]
      have h2 := ih (kc705_infer_file_core fs d statusAt f).2.1
      omega

theorem batchGo_spec (fs : String → Option (List Nat)) (statusAt : Nat → Nat) :
    ∀ (files : List String) (d : Option Device) (p : Nat) (rs : List CResult),
      p + files.length ≤ rs.length →
      batchGo fs statusAt files d p rs =
        (p + (batchRun fs statusAt files d).1.length,
         (batchRun fs statusAt files d).2,
         writeFrom rs p (batchRun fs statusAt files d).1) := by
  intro files
  induction files with
  | nil => intro d p rs _; simp [batchGo, batchRun, writeFrom]
  | cons f rest ih =>
    intro d p rs hcap
    have hplt : p < rs.length := by simp at hcap; omega
    simp only [batchGo, kc705_infer_file, batchRun]
    by_cases hs : (kc705_infer_file_core fs d statusAt f).1 = KC705_SUCCESS
    · obtain ⟨r, hr, _⟩ := iffc_succ_some fs d statusAt f hs
      rw [if_pos hs, hr]
      simp only [Option.getD_some, Option.toList_some]
      have ihs := ih (kc705_infer_file_core fs d statusAt f).2.1 (p + 1) (rs.set p r)
        (by simp at hcap; simp [List.length_set]; omega)
      rw [ihs]
      simp only [hs, if_true, writeFrom]
      refine congrArg (fun n => (n, _, _)) ?_
      simp [List.length_cons]; omega
    · rw [if_neg hs, iffc_fail_none fs d statusAt f hs]
      simp only [Option.getD_none]
      rw [set_getD_self rs p hplt]
      have ihs := ih (kc705_infer_file_core fs d statusAt f).2.1 p rs
        (by simp at hcap ⊢; omega)
      rw [ihs]
      simp only [hs, if_false]

/-! ## Claim C1 -/

/-- C1 (counterexample): the claim says that on the first STATUS check that
reports DONE, `kc705_get_result` reads the result words and returns SUCCESS.
With the schedule `stLate` (DONE first visible at poll index 5000, the check
the loop still performs after its 5000 sleeps), the first check reporting
DONE does report DONE, yet the function returns `KC705_TIMEOUT` and never
reads the result words. -/
theorem c1_counterexample :
    kc705_is_done (some devOpen) (stLate 5000) = true ∧
    kc705_get_result (some devOpen) stLate rec0 = (KC705_TIMEOUT, rec0, false) ∧
    KC705_TIMEOUT ≠ KC705_SUCCESS := by
  refine ⟨by decide, ?_, by decide⟩
  have hnd : ∀ k, k < 5000 → kc705_is_done (some devOpen) (stLate k) = false := by
    intro k hk
    have hne : k ≠ 5000 := by omega
    simp [stLate, hne, kc705_is_done, devOpen]
  have hp := pollElapsed_no_done (some devOpen) stLate hnd
  have ho : devOpen.is_open = true := rfl
  simp [kc705_get_result, kc705_get_result_core, ho, hp]

/-- C1 (amended): for an open handle, if some STATUS check among the first
5000 (poll indices 0‥4999, i.e. within the 5000 ms budget) is the first to
report DONE, `kc705_get_result` returns SUCCESS, reads the three result
words (via `resultWord`: data window if mapped, else three register reads)
and fills the record; if no check within the budget reports DONE it returns
`KC705_TIMEOUT`, leaves the record untouched and reads no result register —
a DONE first visible on the post-budget check (index 5000) still times
out. -/
theorem c1_poll_protocol (dev : Device) (statusAt : Nat → Nat) (rec : CResult)
    (hopen : dev.is_open = true) :
    (∀ k0, k0 < 5000 → kc705_is_done (some dev) (statusAt k0) = true →
      (∀ j, j < k0 → kc705_is_done (some dev) (statusAt j) = false) →
      kc705_get_result (some dev) statusAt rec =
        (KC705_SUCCESS,
         { class_id := resultWord dev 0 % NUM_CLASSES,
           confidence := (resultWord dev 1 : ℚ) / 10000,
           processing_time_us := resultWord dev 2, valid := true },
         true)) ∧
    ((∀ k, k < 5000 → kc705_is_done (some dev) (statusAt k) = false) →
      kc705_get_result (some dev) statusAt rec = (KC705_TIMEOUT, rec, false)) := by
  constructor
  · intro k0 hk hd hf
    have hp := pollElapsed_first_done (some dev) statusAt k0 hk hd hf
    have hnle : ¬ 5000 ≤ k0 := by omega
    simp [kc705_get_result, kc705_get_result_core, hopen, hp, hnle]
  · intro hnd
    have hp := pollElapsed_no_done (some dev) statusAt hnd
    simp [kc705_get_result, kc705_get_result_core, hopen, hp]

/-- C1 witness: on `dev42` (DONE preset) the very first check reports DONE
and the blocking read succeeds. -/
theorem c1_poll_protocol_witness :
    kc705_get_result (some dev42) (fun _ => STAT_DONE) rec0 =
      (KC705_SUCCESS,
       { class_id := resultWord dev42 0 % NUM_CLASSES,
         confidence := (resultWord dev42 1 : ℚ) / 10000,
         processing_time_us := resultWord dev42 2, valid := true },
       true) :=
  (c1_poll_protocol dev42 (fun _ => STAT_DONE) rec0 rfl).1 0 (by omega) (by decide)
    (fun j hj => absurd hj (Nat.not_lt_zero j))

/-! ## Claim C7 -/

/-- C7 (counterexample): the claim says a null or closed handle makes
`kc705_get_result_nowait` return `KC705_INVALID_PARAM`; in fact the failed
DONE probe reads as not-done and the function returns `KC705_TIMEOUT`. -/
theorem c7_counterexample :
    kc705_get_result_nowait (some devClosed) (fun _ => STAT_DONE) rec0 =
      (KC705_TIMEOUT, rec0, false) ∧
    kc705_get_result_nowait none (fun _ => STAT_DONE) rec0 = (KC705_TIMEOUT, rec0, false) ∧
    KC705_TIMEOUT ≠ KC705_INVALID_PARAM := by
  refine ⟨by decide, by decide, by decide⟩

/-- C7 (amended): `kc705_get_result_nowait` on a null or closed handle
returns `KC705_TIMEOUT` (not `KC705_INVALID_PARAM`): the failed status read
is treated as not-done.  If DONE is not set on the single probe it returns
`KC705_TIMEOUT` immediately — no further STATUS read is consulted (the
outcome is the same for every schedule agreeing on read 0) and no result
word is read; if DONE is set it delegates to the blocking
`kc705_get_result` and returns its result. -/
theorem c7_nowait_semantics (d : Option Device) (statusAt : Nat → Nat) (rec : CResult) :
    ((d = none ∨ ∃ dev, d = some dev ∧ dev.is_open = false) →
      kc705_get_result_nowait d statusAt rec = (KC705_TIMEOUT, rec, false)) ∧
    (kc705_is_done d (statusAt 0) = false →
      ∀ s2 : Nat → Nat, s2 0 = statusAt 0 →
        kc705_get_result_nowait d s2 rec = (KC705_TIMEOUT, rec, false)) ∧
    (kc705_is_done d (statusAt 0) = true →
      kc705_get_result_nowait d statusAt rec =
        kc705_get_result d (fun k => statusAt (k + 1)) rec) := by
  refine ⟨?_, ?_, ?_⟩
  · rintro (rfl | ⟨dev, rfl, hcl⟩)
    · simp [kc705_get_result_nowait, kc705_is_done]
    · simp [kc705_get_result_nowait, kc705_is_done, hcl]
  · intro hnd s2 hs2
    have h2 : kc705_is_done d (s2 0) = false := by rw [hs2]; exact hnd
    simp [kc705_get_result_nowait, h2]
  · intro hd
    simp [kc705_get_result_nowait, hd]

/-- C7 witness: open device, DONE not set: immediate timeout. -/
theorem c7_nowait_semantics_witness :
    kc705_get_result_nowait (some devOpen) (fun _ => 0) rec0 = (KC705_TIMEOUT, rec0, false) :=
  (c7_nowait_semantics (some devOpen) (fun _ => 0) rec0).2.1 (by decide) (fun _ => 0) rfl

/-! ## Claim C8 -/

/-- C8: `kc705_close` on a null handle or an already-closed handle returns
`KC705_INVALID_PARAM` with no effects (no unmap, no fd close, no free); on
an open handle it returns `KC705_SUCCESS`, unmaps exactly the mappings that
are present (each independently), closes the fd when non-negative and frees
the handle. -/
theorem c8_close_semantics (dev : Device) :
    kc705_close none = (KC705_INVALID_PARAM, noCloseEff) ∧
    (dev.is_open = false → kc705_close (some dev) = (KC705_INVALID_PARAM, noCloseEff)) ∧
    (dev.is_open = true →
      kc705_close (some dev) =
        (KC705_SUCCESS,
         { unmappedReg := dev.reg_base, unmappedMem := dev.mem_base,
           closedFd := decide (0 ≤ dev.pci_fd), freed := true })) := by
  refine ⟨rfl, ?_, ?_⟩ <;> intro h <;> simp [kc705_close, h]

/-- C8 witness: closing an already-closed handle is rejected with no
effects. -/
theorem c8_close_semantics_witness :
    kc705_close (some devClosed) = (KC705_INVALID_PARAM, noCloseEff) :=
  (c8_close_semantics devClosed).2.1 rfl

/-! ## Claim C9 -/

/-- C9 (counterexample): the claim says `kc705_open_device` reports
`KC705_NO_DEVICE` when discovery finds nothing and `KC705_INVALID_PARAM`
when the index is out of range.  The C function returns a bare NULL pointer
in both cases — the two failures produce identical observable results, so
no error code distinguishes them. -/
theorem c9_counterexample :
    kc705_open_device [] true true 3 zeroRegs zeroRegs 0 = none ∧
    kc705_open_device ["sim0"] true true 3 zeroRegs zeroRegs 5 = none ∧
    kc705_open_device [] true true 3 zeroRegs zeroRegs 0 =
      kc705_open_device ["sim0"] true true 3 zeroRegs zeroRegs 5 := by
  have h1 : kc705_open_device [] true true 3 zeroRegs zeroRegs 0 = none := by
    simp [kc705_open_device]
  have h2 : kc705_open_device ["sim0"] true true 3 zeroRegs zeroRegs 5 = none := by
    simp [kc705_open_device, KC705_MAX_DEVICES]
  exact ⟨h1, h2, h1.trans h2.symm⟩

/-- C9 (amended): `kc705_open_device` signals every failure by the same
null handle: it returns `none` when discovery produced no paths and `none`
again when `0 ≤ index` is not below the discovered count (no `NO_DEVICE` /
`INVALID_PARAM` code reaches the caller); a negative index is not
range-checked at all in the C source (it flows into
`device_paths[device_index]`, undefined behaviour).  On a valid index with
a successful register-window mapping it returns an open handle. -/
theorem c9_open_device_behavior (paths : List String) (mapRegOk mapMemOk : Bool)
    (fd : Int) (hwRegs hwMem : Nat → Nat) (idx : Int) :
    ((paths.take KC705_MAX_DEVICES).length = 0 →
      kc705_open_device paths mapRegOk mapMemOk fd hwRegs hwMem idx = none) ∧
    (((paths.take KC705_MAX_DEVICES).length : Int) ≤ idx →
      kc705_open_device paths mapRegOk mapMemOk fd hwRegs hwMem idx = none) ∧
    (idx < ((paths.take KC705_MAX_DEVICES).length : Int) → mapRegOk = true → 0 ≤ idx →
      ∃ dev, kc705_open_device paths mapRegOk mapMemOk fd hwRegs hwMem idx = some dev ∧
        dev.is_open = true ∧ dev.reg_base = true ∧ dev.mem_base = mapMemOk) := by
  refine ⟨?_, ?_, ?_⟩
  · intro h; simp [kc705_open_device, h]
  · intro h
    simp only [kc705_open_device]
    by_cases h0 : (paths.take KC705_MAX_DEVICES).length = 0
    · rw [if_pos h0]
    · rw [if_neg h0, if_pos h]
  · intro hlt hmap hge
    have h0 : ¬ (paths.take KC705_MAX_DEVICES).length = 0 := by
      intro h0
      rw [h0] at hlt
      simp at hlt
      omega
    have hnle : ¬ ((paths.take KC705_MAX_DEVICES).length : Int) ≤ idx := not_le.mpr hlt
    refine ⟨{ pci_fd := fd, reg_base := true, mem_base := mapMemOk, is_open := true,
              device_id := idx.toNat,
              device_path := (paths.take KC705_MAX_DEVICES).getD idx.toNat "",
              regs := hwRegs, mem := hwMem }, ?_, rfl, rfl, rfl⟩
    simp only [kc705_open_device]
    rw [if_neg h0, if_neg hnle, if_neg (by simp [hmap] : ¬ mapRegOk = false)]

/-- C9 witness: one discovered path, index 0, mapping succeeds. -/
theorem c9_open_device_behavior_witness :
    ∃ dev, kc705_open_device ["sim0"] true true 3 zeroRegs zeroRegs 0 = some dev ∧
      dev.is_open = true ∧ dev.reg_base = true ∧ dev.mem_base = true :=
  (c9_open_device_behavior ["sim0"] true true 3 zeroRegs zeroRegs 0).2.2
    (by simp [KC705_MAX_DEVICES]) rfl (by omega)

/-! ## Claim C10 -/

/-- C10: the ERROR status bit (bit 2) never influences behaviour:
`kc705_is_done` is unchanged by setting it, `kc705_get_result` is unchanged
under any schedule with bit 2 forced on, and a status word with DONE and
ERROR both set still yields `KC705_SUCCESS` with a `valid = true` record —
a hardware-reported error is never surfaced as a distinct failure. -/
theorem c10_error_bit_ignored :
    (∀ (d : Option Device) (s : Nat),
        kc705_is_done d (s ||| STAT_ERROR) = kc705_is_done d s) ∧
    (∀ (d : Option Device) (statusAt : Nat → Nat) (rec : CResult),
        kc705_get_result d (fun k => statusAt k ||| STAT_ERROR) rec =
          kc705_get_result d statusAt rec) ∧
    (∀ (dev : Device) (rec : CResult), dev.is_open = true → dev.reg_base = true →
        (kc705_get_result (some dev) (fun _ => STAT_DONE ||| STAT_ERROR) rec).1 =
          KC705_SUCCESS ∧
        (kc705_get_result (some dev) (fun _ => STAT_DONE ||| STAT_ERROR) rec).2.1.valid =
          true) := by
  refine ⟨is_done_lor_error, ?_, ?_⟩
  · intro d statusAt rec
    have hp : pollElapsed d (fun k => statusAt k ||| STAT_ERROR) = pollElapsed d statusAt :=
      pollGo_congr d _ _ (fun k => is_done_lor_error d (statusAt k)) 5001 0
    cases d with
    | none => rfl
    | some dev => simp [kc705_get_result, kc705_get_result_core, hp]
  · intro dev rec hopen hreg
    have hd : kc705_is_done (some dev) (STAT_DONE ||| STAT_ERROR) = true := by
      simp only [kc705_is_done, hopen, hreg]
      decide
    have hp : pollElapsed (some dev) (fun _ => STAT_DONE ||| STAT_ERROR) = 0 :=
      pollElapsed_first_done _ _ 0 (by omega) hd (fun j hj => absurd hj (Nat.not_lt_zero j))
    constructor <;> simp [kc705_get_result, kc705_get_result_core, hopen, hp]

/-- C10 witness: on `dev42` with DONE and ERROR both set the read still
succeeds with a valid record. -/
theorem c10_error_bit_ignored_witness :
    (kc705_get_result (some dev42) (fun _ => STAT_DONE ||| STAT_ERROR) rec0).1 =
      KC705_SUCCESS ∧
    (kc705_get_result (some dev42) (fun _ => STAT_DONE ||| STAT_ERROR) rec0).2.1.valid =
      true :=
  c10_error_bit_ignored.2.2 dev42 rec0 rfl rfl

/-! ## Claim C2 -/

/-- C2 (code bug): the spec's scenario uploads a 150528-byte image
(`224*224*3`, the size the header documents, `kc705_infer_file` always
passes and the example programs use) to a simulated device with DONE preset
and result record `{42, 8734, 1500}`, expecting SUCCESS with
`{42, 0.8734, 1500, valid}`.  The code instead rejects every buffer larger
than 4096 bytes in `kc705_upload_image` before touching the device, so
`kc705_infer` returns `KC705_INVALID_PARAM` with device and record
unchanged. -/
theorem c2_full_image_rejected (dev : Device) (data : List Nat) (statusAt : Nat → Nat)
    (rec : CResult) (hsize : 4096 < data.length) :
    kc705_infer (some dev) (some data) statusAt rec =
      (KC705_INVALID_PARAM, some dev, rec) := by
  have hu : kc705_upload_image (some dev) (some data) = (KC705_INVALID_PARAM, some dev) := by
    simp only [kc705_upload_image]
    by_cases ho : dev.is_open = false
    · rw [if_pos ho]
    · rw [if_neg ho, if_pos hsize]
  simp [kc705_infer, kc705_infer_core, hu, KC705_INVALID_PARAM, KC705_SUCCESS]

/-- C2 witness: the scenario's device `dev42` with a 150528-byte buffer. -/
theorem c2_full_image_rejected_witness :
    kc705_infer (some dev42) (some (List.replicate 150528 0)) (fun _ => STAT_DONE) rec0 =
      (KC705_INVALID_PARAM, some dev42, rec0) :=
  c2_full_image_rejected dev42 (List.replicate 150528 0) (fun _ => STAT_DONE) rec0
    (by rw [List.length_replicate]; norm_num)

/-! ## Claim C3 -/

/-- The device after the data-placement step of `kc705_upload_image` keeps
its `is_open` flag. -/
theorem placed_is_open (dev : Device) (data : List Nat) :
    (if dev.mem_base then memWrite dev KC705_IMAGE_BASE data
     else uploadWords dev data).is_open = dev.is_open := by
  by_cases hm : dev.mem_base = true
  · simp [hm, memWrite_is_open]
  · simp [hm, uploadWords_is_open]

/-- The device after the data-placement step of `kc705_upload_image` keeps
its `reg_base` flag. -/
theorem placed_reg_base (dev : Device) (data : List Nat) :
    (if dev.mem_base then memWrite dev KC705_IMAGE_BASE data
     else uploadWords dev data).reg_base = dev.reg_base := by
  by_cases hm : dev.mem_base = true
  · simp [hm, memWrite_reg_base]
  · simp [hm, uploadWords_reg_base]

/-- C3: for every open handle (register window mapped) and non-null buffer:
a buffer larger than 4096 bytes is rejected with `KC705_INVALID_PARAM` and
the device is untouched; a buffer of at most 4096 bytes succeeds and
afterwards the image-size register reads back exactly the buffer size,
whichever transport path (`memWrite` into the data window or the
`uploadWords` register fallback) was taken. -/
theorem c3_upload_size_semantics (dev : Device) (data : List Nat)
    (hopen : dev.is_open = true) (hreg : dev.reg_base = true) :
    (4096 < data.length →
      kc705_upload_image (some dev) (some data) = (KC705_INVALID_PARAM, some dev)) ∧
    (data.length ≤ 4096 →
      (kc705_upload_image (some dev) (some data)).1 = KC705_SUCCESS ∧
      kc705_read_reg (kc705_upload_image (some dev) (some data)).2 REG_IMAGE_SIZE =
        (KC705_SUCCESS, some data.length)) := by
  have ho' : ¬ dev.is_open = false := by simp [hopen]
  constructor
  · intro hsz
    simp only [kc705_upload_image]
    rw [if_neg ho', if_pos hsz]
  · intro hsz
    have hnsz : ¬ 4096 < data.length := by omega
    have h1o : (if dev.mem_base then memWrite dev KC705_IMAGE_BASE data
        else uploadWords dev data).is_open = true := by
      rw [placed_is_open]; exact hopen
    have h1r : (if dev.mem_base then memWrite dev KC705_IMAGE_BASE data
        else uploadWords dev data).reg_base = true := by
      rw [placed_reg_base]; exact hreg
    simp only [kc705_upload_image]
    rw [if_neg ho', if_neg hnsz]
    refine ⟨rfl, ?_⟩
    simp only [kc705_read_reg]
    rw [if_pos (by rw [writeRegD_is_open, writeRegD_reg_base, h1o, h1r]; rfl)]
    rw [writeRegD_regs_self _ _ _ h1o h1r]
    have hlt32 : data.length < UINT32_MOD := by unfold UINT32_MOD; omega
    rw [Nat.mod_eq_of_lt hlt32]

/-- C3 witness: a 5-byte upload on `dev42` (register fallback path). -/
theorem c3_upload_size_semantics_witness :
    (kc705_upload_image (some dev42) (some [1, 2, 3, 4, 5])).1 = KC705_SUCCESS ∧
    kc705_read_reg (kc705_upload_image (some dev42) (some [1, 2, 3, 4, 5])).2 REG_IMAGE_SIZE =
      (KC705_SUCCESS, some 5) :=
  (c3_upload_size_semantics dev42 [1, 2, 3, 4, 5] rfl rfl).2 (by norm_num)

/-! ## Claim C4 -/

/-- If the DONE bit is constantly set, the poll loop exits on its very
first check. -/
theorem pollElapsed_const_done (d : Option Device) (s : Nat)
    (hd : kc705_is_done d s = true) : pollElapsed d (fun _ => s) = 0 :=
  pollElapsed_first_done d _ 0 (by omega) hd (fun j hj => absurd hj (Nat.not_lt_zero j))

/-- C4 (counterexample): the claim says every `valid = true` result has
confidence in `[0, 1]`.  On `devConf` (DONE preset, raw confidence word
20000) the result is valid with confidence 2. -/
theorem c4_confidence_counterexample :
    (kc705_get_result (some devConf) (fun _ => STAT_DONE) rec0).2.1.valid = true ∧
    (kc705_get_result (some devConf) (fun _ => STAT_DONE) rec0).2.1.confidence = 2 ∧
    ¬ (kc705_get_result (some devConf) (fun _ => STAT_DONE) rec0).2.1.confidence ≤ 1 := by
  have hp := pollElapsed_const_done (some devConf) STAT_DONE (by decide)
  have ho : devConf.is_open = true := rfl
  have hw : resultWord devConf 1 = 20000 := by decide
  refine ⟨?_, ?_, ?_⟩
  · simp [kc705_get_result, kc705_get_result_core, ho, hp]
  · simp [kc705_get_result, kc705_get_result_core, ho, hp, hw]
    norm_num
  · simp [kc705_get_result, kc705_get_result_core, ho, hp, hw]
    norm_num

/-- C4 (amended): every record `kc705_get_result` marks valid carries
`class_id = raw mod NUM_CLASSES` (hence strictly below 1000 for every raw
word, garbage included) and `confidence = raw_confidence / 10000`, which is
nonnegative but lies in `[0, 1]` exactly when the raw fixed-point word is at
most 10000 — a garbage confidence word above 10000 yields confidence
greater than 1. -/
theorem c4_valid_result_fields (dev : Device) (statusAt : Nat → Nat) (rec : CResult)
    (hrec : rec.valid = false)
    (hvalid : (kc705_get_result (some dev) statusAt rec).2.1.valid = true) :
    (kc705_get_result (some dev) statusAt rec).2.1.class_id =
      resultWord dev 0 % NUM_CLASSES ∧
    (kc705_get_result (some dev) statusAt rec).2.1.class_id < NUM_CLASSES ∧
    (kc705_get_result (some dev) statusAt rec).2.1.confidence =
      (resultWord dev 1 : ℚ) / 10000 ∧
    0 ≤ (kc705_get_result (some dev) statusAt rec).2.1.confidence ∧
    ((kc705_get_result (some dev) statusAt rec).2.1.confidence ≤ 1 ↔
      resultWord dev 1 ≤ 10000) := by
  by_cases ho : dev.is_open = false
  · exfalso
    simp [kc705_get_result, kc705_get_result_core, ho, hrec] at hvalid
  · by_cases ht : 5000 ≤ pollElapsed (some dev) statusAt
    · exfalso
      simp [kc705_get_result, kc705_get_result_core, ho, ht, hrec] at hvalid
    · have hq : kc705_get_result (some dev) statusAt rec =
          (KC705_SUCCESS,
           { class_id := resultWord dev 0 % NUM_CLASSES,
             confidence := (resultWord dev 1 : ℚ) / 10000,
             processing_time_us := resultWord dev 2, valid := true }, true) := by
        simp [kc705_get_result, kc705_get_result_core, ho, ht]
      rw [hq]
      refine ⟨rfl, ?_, rfl, ?_, ?_⟩
      · show resultWord dev 0 % NUM_CLASSES < NUM_CLASSES
        exact Nat.mod_lt _ (by norm_num [NUM_CLASSES])
      · show (0 : ℚ) ≤ (resultWord dev 1 : ℚ) / 10000
        exact div_nonneg (Nat.cast_nonneg _) (by norm_num)
      · show (resultWord dev 1 : ℚ) / 10000 ≤ 1 ↔ resultWord dev 1 ≤ 10000
        rw [div_le_one (by norm_num : (0 : ℚ) < 10000)]
        exact_mod_cast Iff.rfl

/-- C4 witness: `devConf` produces a valid record whose fields satisfy the
amended bounds. -/
theorem c4_valid_result_fields_witness :
    (kc705_get_result (some devConf) (fun _ => STAT_DONE) rec0).2.1.class_id =
      resultWord devConf 0 % NUM_CLASSES ∧
    (kc705_get_result (some devConf) (fun _ => STAT_DONE) rec0).2.1.class_id < NUM_CLASSES ∧
    (kc705_get_result (some devConf) (fun _ => STAT_DONE) rec0).2.1.confidence =
      (resultWord devConf 1 : ℚ) / 10000 ∧
    0 ≤ (kc705_get_result (some devConf) (fun _ => STAT_DONE) rec0).2.1.confidence ∧
    ((kc705_get_result (some devConf) (fun _ => STAT_DONE) rec0).2.1.confidence ≤ 1 ↔
      resultWord devConf 1 ≤ 10000) :=
  c4_valid_result_fields devConf (fun _ => STAT_DONE) rec0 rfl (by
    have hp := pollElapsed_const_done (some devConf) STAT_DONE (by decide)
    have ho : devConf.is_open = true := rfl
    simp [kc705_get_result, kc705_get_result_core, ho, hp])

/-! ## Claim C5 -/

/-- C5: whenever `kc705_get_result` or `kc705_infer` returns a failure code
(anything other than `KC705_SUCCESS`, in particular `KC705_TIMEOUT`), the
caller's result record is returned exactly as it was given — never
partially populated; `valid = true` is produced only together with
`KC705_SUCCESS`, so a timed-out run never leaves a record it marked valid. -/
theorem c5_no_partial_result (d : Option Device) (img : Option (List Nat))
    (statusAt : Nat → Nat) (rec : CResult) (hrec : rec.valid = false) :
    ((kc705_get_result d statusAt rec).1 ≠ KC705_SUCCESS →
      (kc705_get_result d statusAt rec).2.1 = rec) ∧
    ((kc705_get_result d statusAt rec).1 = KC705_SUCCESS →
      (kc705_get_result d statusAt rec).2.1.valid = true) ∧
    ((kc705_get_result d statusAt rec).1 = KC705_TIMEOUT →
      (kc705_get_result d statusAt rec).2.1.valid = false) ∧
    ((kc705_infer d img statusAt rec).1 ≠ KC705_SUCCESS →
      (kc705_infer d img statusAt rec).2.2 = rec) ∧
    ((kc705_infer d img statusAt rec).1 = KC705_SUCCESS →
      (kc705_infer d img statusAt rec).2.2.valid = true) ∧
    ((kc705_infer d img statusAt rec).1 = KC705_TIMEOUT →
      (kc705_infer d img statusAt rec).2.2.valid = false) := by
  refine ⟨?_, ?_, ?_, ?_, ?_, ?_⟩
  · intro h
    have hn := grc_fail_none d statusAt h
    simp [kc705_get_result, hn]
  · intro h
    obtain ⟨r, hr, hv⟩ := grc_succ_some d statusAt h
    simp [kc705_get_result, hr, hv]
  · intro h
    have hne : (kc705_get_result_core d statusAt).1 ≠ KC705_SUCCESS := by
      have h2 : (kc705_get_result_core d statusAt).1 = KC705_TIMEOUT := h
      rw [h2]; decide
    have hn := grc_fail_none d statusAt hne
    simp [kc705_get_result, hn, hrec]
  · intro h
    have hn := ic_fail_none d img statusAt h
    simp [kc705_infer, hn]
  · intro h
    obtain ⟨r, hr, hv⟩ := ic_succ_some d img statusAt h
    simp [kc705_infer, hr, hv]
  · intro h
    have hne : (kc705_infer_core d img statusAt).1 ≠ KC705_SUCCESS := by
      have h2 : (kc705_infer_core d img statusAt).1 = KC705_TIMEOUT := h
      rw [h2]; decide
    have hn := ic_fail_none d img statusAt hne
    simp [kc705_infer, hn, hrec]

/-- C5 witness: a device that never reports DONE times out and hands the
record back untouched. -/
theorem c5_no_partial_result_witness :
    (kc705_get_result (some devOpen) (fun _ => 0) rec0).2.1 = rec0 := by
  have hz : kc705_is_done (some devOpen) 0 = false := by decide
  have hnd : ∀ k, k < 5000 → kc705_is_done (some devOpen) ((fun _ => 0) k) = false :=
    fun k _ => hz
  have hp := pollElapsed_no_done (some devOpen) (fun _ => 0) hnd
  have ho : devOpen.is_open = true := rfl
  have h1 : (kc705_get_result (some devOpen) (fun _ => 0) rec0).1 ≠ KC705_SUCCESS := by
    simp [kc705_get_result, kc705_get_result_core, ho, hp, KC705_TIMEOUT, KC705_SUCCESS]
  exact (c5_no_partial_result (some devOpen) none (fun _ => 0) rec0 rfl).1 h1

/-! ## Claim C6 -/

/-- C6: `kc705_infer_batch` iterates the inputs in order, threading the
device through every item and never aborting or shortening the batch on a
per-item failure; it returns the number of items whose `kc705_infer_file`
call returned `KC705_SUCCESS`, and the final results array is exactly the
encounter-order list of the successful records (`batchRun`) written densely
at the front, followed by the untouched tail of the caller's array — so
positional correspondence between inputs and result slots is not preserved
once any item fails. -/
theorem c6_batch_dense (fs : String → Option (List Nat)) (statusAt : Nat → Nat)
    (d : Option Device) (files : List String) (results : List CResult)
    (hcap : files.length ≤ results.length) :
    kc705_infer_batch fs d statusAt files results =
      ((batchRun fs statusAt files d).1.length,
       (batchRun fs statusAt files d).2,
       (batchRun fs statusAt files d).1 ++
         results.drop (batchRun fs statusAt files d).1.length) ∧
    (batchRun fs statusAt files d).1.length ≤ files.length := by
  have hlen := batchRun_length_le fs statusAt files d
  have hspec := batchGo_spec fs statusAt files d 0 results (by omega)
  have hwf := writeFrom_eq (batchRun fs statusAt files d).1 results 0 (by omega)
  refine ⟨?_, hlen⟩
  unfold kc705_infer_batch
  rw [hspec, hwf]
  simp

/-- C6 witness: a two-item batch in which every item fails (files absent)
returns count 0 and leaves the result array unchanged. -/
theorem c6_batch_dense_witness :
    kc705_infer_batch (fun _ => none) (some devOpen) (fun _ => 0) ["a", "b"] [rec0, rec0] =
      ((batchRun (fun _ => none) (fun _ => 0) ["a", "b"] (some devOpen)).1.length,
       (batchRun (fun _ => none) (fun _ => 0) ["a", "b"] (some devOpen)).2,
       (batchRun (fun _ => none) (fun _ => 0) ["a", "b"] (some devOpen)).1 ++
         (List.drop
           (batchRun (fun _ => none) (fun _ => 0) ["a", "b"] (some devOpen)).1.length
           [rec0, rec0])) ∧
    (batchRun (fun _ => none) (fun _ => 0) ["a", "b"] (some devOpen)).1.length ≤
      ["a", "b"].length :=
  c6_batch_dense (fun _ => none) (fun _ => 0) (some devOpen) ["a", "b"] [rec0, rec0]
    (Nat.le_refl 2)
